import Mathlib

/-!
Shallow embedding of the chrisprice/offscreen-canvas repository.

The repository has two source files:

* src/index.js — the Controller on the main thread: it lazily creates the
  worker on the first `measure` event, transfers the canvas drawing surface
  to it exactly once, and forwards every measured `{width, height}`.
* src/worker.js — the Renderer inside the worker: it generates a random
  dataset, configures a d3fc WebGL point series, and in its `message`
  handler acquires the WebGL context and starts the render loop when a
  message carries the offscreen canvas, and resizes the canvas backing
  store and viewport when a message carries width and height.

State mutation performed by the two event handlers is embedded as explicit
state passing.  A JavaScript exception thrown by a handler (dereferencing a
null context, calling an absent method) is modelled as an optional error
paired with the state as mutated up to the throwing point; the surrounding
event loop keeps running after such an exception, so traces fold over the
returned states.
-/

namespace OffscreenCanvas

/-- Handle to an offscreen canvas, carrying its backing dimensions as
inherited from the canvas element at transfer time. -/
structure OffscreenCanvasH where
  width : Nat
  height : Nat

/-- Message received by the worker: `{ data: { offscreenCanvas, width, height } }`
(src/worker.js line 74).  Each field is independently optional. -/
structure WorkerMsg where
  offscreenCanvas : Option OffscreenCanvasH := none
  width : Option Nat := none
  height : Option Nat := none

/-- State attached to the WebGL context: the canvas backing dimensions
(`gl.canvas.width` / `gl.canvas.height`) and the viewport set by
`gl.viewport(0, 0, w, h)`. -/
structure GLState where
  canvasWidth : Nat
  canvasHeight : Nat
  viewportWidth : Nat
  viewportHeight : Nat

/-- Observable actions of the worker message handler, recorded in execution
order. -/
inductive RenderAction where
  | getContext
  | setContext
  | startRenderLoop
  | setCanvasSize (w h : Nat)
  | setViewport (w h : Nat)

/-- Exception thrown inside the worker message handler:
`gl.canvas.width = width` with `gl` null (`series.context()` never set). -/
inductive WorkerError where
  | nullContextDeref

/-- Renderer state: `gl` models `series.context()` (null until a surface
message arrives), `rendering` records whether `render()` has started the
animation loop, `actions` is the log of handler actions. -/
structure RendererState where
  gl : Option GLState
  rendering : Bool
  actions : List RenderAction

/-- Worker state before any message: no context, no render loop. -/
def initialRenderer : RendererState :=
  { gl := none, rendering := false, actions := [] }

/-- Embedding of the worker `message` listener, src/worker.js lines 74–88:

* `if (offscreenCanvas != null)` — acquire the webgl context from the
  transferred canvas, install it with `series.context(gl)` and call
  `render()`, starting the animation loop.
* `if (width != null && height != null)` — read back `series.context()`,
  set `gl.canvas.width/height` and `gl.viewport(0, 0, ...)` from the
  just-assigned dimensions.  When no context was ever installed,
  `series.context()` is null and the property access throws. -/
def handleMessage (m : WorkerMsg) (s : RendererState) :
    RendererState × Option WorkerError :=
  let s1 :=
    match m.offscreenCanvas with
    | some c =>
        { s with
          gl := some { canvasWidth := c.width, canvasHeight := c.height,
                       viewportWidth := c.width, viewportHeight := c.height },
          rendering := true,
          actions := s.actions ++
            [RenderAction.getContext, RenderAction.setContext,
             RenderAction.startRenderLoop] }
    | none => s
  match m.width, m.height with
  | some w, some h =>
      match s1.gl with
      | some _ =>
          ({ s1 with
             gl := some { canvasWidth := w, canvasHeight := h,
                          viewportWidth := w, viewportHeight := h },
             actions := s1.actions ++
               [RenderAction.setCanvasSize w h, RenderAction.setViewport w h] },
           none)
      | none => (s1, some WorkerError.nullContextDeref)
  | _, _ => (s1, none)

/-- Worker-loop view of one message: an uncaught exception leaves the state
as mutated so far and the worker keeps consuming messages. -/
def processMessage (s : RendererState) (m : WorkerMsg) : RendererState :=
  (handleMessage m s).1

/-- Fold of the worker event loop over a FIFO-ordered message sequence. -/
def processMessages (s : RendererState) (msgs : List WorkerMsg) : RendererState :=
  msgs.foldl processMessage s

/-- Size-only message `{ width, height }` as posted by the Controller on
every measurement. -/
def sizeMsg (w h : Nat) : WorkerMsg :=
  { width := some w, height := some h }

/-- Surface-transfer message `{ offscreenCanvas }` as posted by the
Controller once. -/
def surfaceMsg (c : OffscreenCanvasH) : WorkerMsg :=
  { offscreenCanvas := some c }

/-- Message posted by the Controller to the worker (src/index.js
lines 17 and 20). -/
inductive CtrlMsg where
  | surfaceTransfer (c : OffscreenCanvasH)
  | sizeUpdate (w h : Nat)

/-- Exception thrown inside the Controller measure listener:
`canvas.transferControlToOffscreen()` invoked while the method is absent. -/
inductive CtrlError where
  | typeErrorNotAFunction

/-- Controller state: `worker` models the `let worker = null` module
variable, `sent` the FIFO sequence of messages posted to the worker,
`alerts` the number of alert dialogs shown. -/
structure ControllerState where
  worker : Option Unit
  sent : List CtrlMsg
  alerts : Nat

/-- Controller state at script start: `worker` is null, nothing sent. -/
def initialController : ControllerState :=
  { worker := none, sent := [], alerts := 0 }

/-- Embedding of the Controller `measure` listener, src/index.js lines 8–21.
`supported` models whether `canvas.transferControlToOffscreen` is non-null,
`c` the handle such a call returns, `d` the measured `detail` dimensions:

* `if (worker == null)` — assign a fresh worker; alert when the capability
  is absent; then call `transferControlToOffscreen()` — a throwing call
  when the method is absent, aborting the handler before any postMessage —
  and post the surface-transfer message.
* unconditionally (when not aborted) post `{ width, height }`. -/
def onMeasure (supported : Bool) (c : OffscreenCanvasH)
    (s : ControllerState) (d : Nat × Nat) :
    ControllerState × Option CtrlError :=
  match s.worker with
  | none =>
      let s1 := { s with worker := some () }
      let s2 := if supported then s1 else { s1 with alerts := s1.alerts + 1 }
      if supported then
        let s3 := { s2 with sent := s2.sent ++ [CtrlMsg.surfaceTransfer c] }
        ({ s3 with sent := s3.sent ++ [CtrlMsg.sizeUpdate d.1 d.2] }, none)
      else
        (s2, some CtrlError.typeErrorNotAFunction)
  | some _ =>
      ({ s with sent := s.sent ++ [CtrlMsg.sizeUpdate d.1 d.2] }, none)

/-- Event-loop view of one measure event: an uncaught exception leaves the
state as mutated so far; later events still run the listener. -/
def measureStep (supported : Bool) (c : OffscreenCanvasH)
    (s : ControllerState) (d : Nat × Nat) : ControllerState :=
  (onMeasure supported c s d).1

/-- Fold of the Controller over a sequence of measure events. -/
def runMeasures (supported : Bool) (c : OffscreenCanvasH)
    (s : ControllerState) (events : List (Nat × Nat)) : ControllerState :=
  events.foldl (measureStep supported c) s

/-- Discriminator for surface-transfer messages. -/
def isSurfaceTransfer : CtrlMsg → Bool
  | CtrlMsg.surfaceTransfer _ => true
  | CtrlMsg.sizeUpdate _ _ => false

/-- Number of surface-transfer messages in a posted-message trace. -/
def countSurfaceTransfers (l : List CtrlMsg) : Nat :=
  l.countP isSurfaceTransfer

/-- Synthetic data point (src/worker.js lines 26–30): normal x and y draws
and a scaled log-normal size. -/
structure SyntheticPoint where
  x : ℝ
  y : ℝ
  size : ℝ

/-- Embedding of `Array.from({ length: n }, () => ({ x: randomNormal(), ... }))`
(src/worker.js lines 26–30): one generator draw per slot, `gen i` being the
triple produced for slot `i` of the random stream. -/
def makeData (gen : Nat → SyntheticPoint) (n : Nat) : List SyntheticPoint :=
  (List.range n).map gen

/-- Easing scalar of the render loop (src/worker.js line 66):
`5 * (0.51 + 0.49 * Math.sin(Date.now() / 1e3))` at wall-clock time `t`,
over the reals. -/
noncomputable def ease (t : ℝ) : ℝ :=
  5 * (0.51 + 0.49 * Real.sin (t / 1000))

/-- Output of one render-loop iteration: the domains installed on the two
linear scales and the dataset handed to the series draw call. -/
structure Frame where
  xDomain : ℝ × ℝ
  yDomain : ℝ × ℝ
  drawn : List SyntheticPoint

/-- Embedding of one iteration of `render()` (src/worker.js lines 65–72):
`xScale.domain([-ease, ease])`, `yScale.domain([-ease, ease])`,
`series(data)`. -/
noncomputable def renderFrame (t : ℝ) (data : List SyntheticPoint) : Frame :=
  { xDomain := (-(ease t), ease t)
    yDomain := (-(ease t), ease t)
    drawn := data }

/-- The d3.schemeAccent palette (src/worker.js line 47), as RGB byte
triples: #7fc97f #beaed4 #fdc086 #ffff99 #386cb0 #f0027f #bf5b17 #666666. -/
def schemeAccent : List (Nat × Nat × Nat) :=
  [(127, 201, 127), (190, 174, 212), (253, 192, 134), (255, 255, 153),
   (56, 108, 176), (240, 2, 127), (191, 91, 23), (102, 102, 102)]

/-- Index of the first occurrence of `x` in `l` (length of `l` when
absent): the implicit-domain position d3.scaleOrdinal assigns to input `x`
after the queries `l` were presented in order. -/
def firstIdx : List Nat → Nat → Nat
  | [], _ => 0
  | a :: t, x => if a = x then 0 else firstIdx t x + 1

/-- Model of `d3.scaleOrdinal(d3.schemeAccent)` (src/worker.js line 47)
after the query sequence `presented`: an unseen input is appended to the
implicit domain, and the scale answers with the range entry at the input's
domain position modulo the range length. -/
def ordinalScaleColor (presented : List Nat) (i : Nat) : Nat × Nat × Nat :=
  schemeAccent.getD (firstIdx presented i % schemeAccent.length) (0, 0, 0)

/-- Embedding of `webglColor` (src/worker.js lines 49–52): per-channel
values divided by 255 plus an opacity of 1 (the palette colors are opaque
hex colors). -/
def webglColor (c : Nat × Nat × Nat) : ℚ × ℚ × ℚ × ℚ :=
  ((c.1 : ℚ) / 255, (c.2.1 : ℚ) / 255, (c.2.2 : ℚ) / 255, 1)

/-- Fill color of point index `i` (src/worker.js lines 54–57):
`webglColor(colorScale(i))`, the color scale having been queried with the
indices `0 .. n-1` in ascending order by the fill-color decorator walking
the dataset. -/
def fillColorValue (n i : Nat) : ℚ × ℚ × ℚ × ℚ :=
  webglColor (ordinalScaleColor (List.range n) i)

/-- Decimal value of a digit sequence, most significant first. -/
def digitsToNat (cs : List Char) : Nat :=
  cs.foldl (fun acc c => acc * 10 + (c.toNat - 48)) 0

/-- Model of the JavaScript `Number(string)` conversion, restricted to the
strings this program feeds it (src/index.js line 10): a nonempty string of
decimal digits denotes its value, any other string is NaN, represented as
`none`. -/
def jsNumber (cs : List Char) : Option Nat :=
  if cs ≠ [] ∧ cs.all Char.isDigit then some (digitsToNat cs) else none

/-- Stringification of a JavaScript number as performed by the template
literal building the worker URL hash (src/index.js line 10): NaN prints as
"NaN". -/
def jsNumberToString : Option Nat → List Char
  | none => ['N', 'a', 'N']
  | some n => Nat.toDigits 10 n

/-- Model of the JavaScript `parseInt(string)` call (src/worker.js
line 26), restricted to the strings this program feeds it: the longest
leading run of decimal digits denotes the value, NaN (`none`) when that
run is empty. -/
def jsParseInt (cs : List Char) : Option Nat :=
  let ds := cs.takeWhile Char.isDigit
  if ds = [] then none else some (digitsToNat ds)

/-- Length coercion of `Array.from({ length: v })`: the ToLength of NaN is
0, a number maps to itself. -/
def arrayFromLength : Option Nat → Nat
  | none => 0
  | some n => n

/-- Embedding of src/index.js lines 1–3: an empty `location.search` is
replaced by the fixed default query `?10000`. -/
def normalizeSearch (s : List Char) : List Char :=
  if s = [] then ['?', '1', '0', '0', '0', '0'] else s

/-- The worker URL hash parameter (src/index.js line 10):
`Number(location.search.substring(1))` interpolated into
`worker.js#...`. -/
def workerHashParam (search : List Char) : List Char :=
  jsNumberToString (jsNumber ((normalizeSearch search).drop 1))

/-- Dataset length of the worker (src/worker.js line 26):
`Array.from({ length: parseInt(location.hash.substring(1)) }, ...)`,
composed with the Controller-side construction of that hash. -/
def datasetLength (search : List Char) : Nat :=
  arrayFromLength (jsParseInt (workerHashParam search))

/-! Helper lemmas about the worker event loop. -/

theorem processMessages_nil (s : RendererState) : processMessages s [] = s := rfl

theorem processMessages_cons (s : RendererState) (m : WorkerMsg)
    (l : List WorkerMsg) :
    processMessages s (m :: l) = processMessages (processMessage s m) l := rfl

theorem processMessages_append (s : RendererState) (l1 l2 : List WorkerMsg) :
    processMessages s (l1 ++ l2) = processMessages (processMessages s l1) l2 := by
  simp [processMessages, List.foldl_append]

theorem processMessage_size (s : RendererState) (g : GLState) (w h : Nat)
    (hs : s.gl = some g) :
    processMessage s (sizeMsg w h) =
      { s with
        gl := some { canvasWidth := w, canvasHeight := h,
                     viewportWidth := w, viewportHeight := h },
        actions := s.actions ++
          [RenderAction.setCanvasSize w h, RenderAction.setViewport w h] } := by
  simp [processMessage, handleMessage, sizeMsg, hs]

theorem processMessages_sizes_gl (sizes : List (Nat × Nat))
    (s : RendererState) (hs : s.gl.isSome) :
    (processMessages s (sizes.map (fun p => sizeMsg p.1 p.2))).gl.isSome := by
  induction sizes generalizing s with
  | nil => exact hs
  | cons a rest ih =>
      obtain ⟨g, hg⟩ := Option.isSome_iff_exists.mp hs
      rw [List.map_cons, processMessages_cons,
        processMessage_size s g a.1 a.2 hg]
      exact ih _ rfl

/-- C1: for every sequence of size-update messages received after the
surface transfer, the Renderer's canvas backing dimensions and WebGL
viewport equal the width and height of the most recently received
`{width, height}` message — last write wins, each update fully replacing
the prior size. -/
theorem renderer_size_last_write_wins (c : OffscreenCanvasH)
    (sizes : List (Nat × Nat)) (w h : Nat) :
    (processMessages initialRenderer
        (surfaceMsg c :: (sizes.map (fun p => sizeMsg p.1 p.2) ++ [sizeMsg w h]))).gl =
      some { canvasWidth := w, canvasHeight := h,
             viewportWidth := w, viewportHeight := h } := by
  rw [processMessages_cons, processMessages_append]
  have h1 : (processMessage initialRenderer (surfaceMsg c)).gl.isSome := rfl
  obtain ⟨g, hg⟩ := Option.isSome_iff_exists.mp
    (processMessages_sizes_gl sizes _ h1)
  rw [processMessages_cons, processMessages_nil, processMessage_size _ g w h hg]

/-- C3 counterexample: a `{width, height}` message arriving before any
surface-transfer message is not cleanly ignored — the handler faults with
a null-context dereference (`series.context()` was never set when
`gl.canvas.width` is accessed); no rendering occurs. -/
theorem renderer_size_before_surface_faults :
    (handleMessage (sizeMsg 800 600) initialRenderer).2 =
        some WorkerError.nullContextDeref ∧
      (handleMessage (sizeMsg 800 600) initialRenderer).1.rendering = false :=
  ⟨rfl, rfl⟩

/-- C3 amended: a size-only message received before any surface transfer
starts no rendering and leaves the renderer state unchanged, but it is not
silently ignored — the handler throws a type error dereferencing the
absent WebGL context (the worker itself survives and keeps consuming
messages). -/
theorem renderer_size_before_surface_no_render (w h : Nat) :
    (handleMessage (sizeMsg w h) initialRenderer).1 = initialRenderer ∧
      (handleMessage (sizeMsg w h) initialRenderer).1.rendering = false ∧
      (handleMessage (sizeMsg w h) initialRenderer).2 =
        some WorkerError.nullContextDeref :=
  ⟨rfl, rfl, rfl⟩

/-- C9: a single message carrying both a surface handle and width/height is
acted on in one handler invocation and in a fixed order — first the WebGL
context is acquired and the render loop started, then the canvas
dimensions and the viewport are set (so the size branch sees the context
installed by the surface branch). -/
theorem renderer_combined_message_order (c : OffscreenCanvasH) (w h : Nat) :
    handleMessage
        { offscreenCanvas := some c, width := some w, height := some h }
        initialRenderer =
      ({ gl := some { canvasWidth := w, canvasHeight := h,
                      viewportWidth := w, viewportHeight := h },
         rendering := true,
         actions := [RenderAction.getContext, RenderAction.setContext,
                     RenderAction.startRenderLoop,
                     RenderAction.setCanvasSize w h,
                     RenderAction.setViewport w h] },
       none) := rfl

/-! Helper lemmas about the Controller event loop. -/

theorem runMeasures_cons (supported : Bool) (c : OffscreenCanvasH)
    (s : ControllerState) (e : Nat × Nat) (rest : List (Nat × Nat)) :
    runMeasures supported c s (e :: rest) =
      runMeasures supported c (measureStep supported c s e) rest := rfl

theorem measureStep_some (supported : Bool) (c : OffscreenCanvasH)
    (s : ControllerState) (d : Nat × Nat) (hs : s.worker = some ()) :
    measureStep supported c s d =
      { s with sent := s.sent ++ [CtrlMsg.sizeUpdate d.1 d.2] } := by
  simp [measureStep, onMeasure, hs]

theorem runMeasures_some (supported : Bool) (c : OffscreenCanvasH)
    (events : List (Nat × Nat)) (s : ControllerState)
    (hs : s.worker = some ()) :
    runMeasures supported c s events =
      { s with
        sent := s.sent ++ events.map (fun d => CtrlMsg.sizeUpdate d.1 d.2) } := by
  induction events generalizing s with
  | nil => simp [runMeasures]
  | cons e rest ih =>
      rw [runMeasures_cons, measureStep_some supported c s e hs,
        ih { s with sent := s.sent ++ [CtrlMsg.sizeUpdate e.1 e.2] } hs]
      simp

theorem countSurfaceTransfers_sizes (l : List (Nat × Nat)) :
    countSurfaceTransfers (l.map (fun d => CtrlMsg.sizeUpdate d.1 d.2)) = 0 := by
  induction l with
  | nil => rfl
  | cons a t ih =>
      simp [countSurfaceTransfers, List.countP_cons, isSurfaceTransfer] at ih ⊢

/-- C2: for every sequence of measurement events, the surface-transfer
message is posted exactly once per Controller lifetime — during the first
measure event, the presence check on the worker handle making all
subsequent events post size updates only. -/
theorem controller_surface_sent_once (c : OffscreenCanvasH) (e : Nat × Nat)
    (rest : List (Nat × Nat)) :
    (runMeasures true c initialController (e :: rest)).sent =
        CtrlMsg.surfaceTransfer c :: CtrlMsg.sizeUpdate e.1 e.2 ::
          rest.map (fun d => CtrlMsg.sizeUpdate d.1 d.2) ∧
      countSurfaceTransfers
        (runMeasures true c initialController (e :: rest)).sent = 1 := by
  have hstep : measureStep true c initialController e =
      { worker := some (),
        sent := [CtrlMsg.surfaceTransfer c, CtrlMsg.sizeUpdate e.1 e.2],
        alerts := 0 } := rfl
  have hrun := runMeasures_some true c rest
    (measureStep true c initialController e) (by rw [hstep])
  rw [runMeasures_cons, hrun, hstep]
  refine ⟨rfl, ?_⟩
  have hz := countSurfaceTransfers_sizes rest
  simp only [countSurfaceTransfers] at hz
  simp [countSurfaceTransfers, List.countP_cons, List.countP_append,
    isSurfaceTransfer, hz]

/-! Helper lemmas for the capability-absent Controller path. -/

theorem measureStep_unsupported_count (c : OffscreenCanvasH)
    (s : ControllerState) (d : Nat × Nat) :
    countSurfaceTransfers (measureStep false c s d).sent =
      countSurfaceTransfers s.sent := by
  cases hw : s.worker with
  | none => simp [measureStep, onMeasure, hw]
  | some u =>
      simp [measureStep, onMeasure, hw, countSurfaceTransfers,
        List.countP_append, List.countP_cons, isSurfaceTransfer]

theorem runMeasures_unsupported_count (c : OffscreenCanvasH)
    (events : List (Nat × Nat)) (s : ControllerState) :
    countSurfaceTransfers (runMeasures false c s events).sent =
      countSurfaceTransfers s.sent := by
  induction events generalizing s with
  | nil => rfl
  | cons e rest ih =>
      rw [runMeasures_cons, ih, measureStep_unsupported_count]

/-- C4 counterexample: with `transferControlToOffscreen` absent, the first
measurement event does surface the warning alert, but the handler then
throws a type error calling the absent method — the Controller does not
survive the first measure handler cleanly, refuting the no-crash part of
the claim. -/
theorem controller_unsupported_first_measure_throws :
    (onMeasure false { width := 300, height := 150 } initialController
        (800, 600)).1.alerts = 1 ∧
      (onMeasure false { width := 300, height := 150 } initialController
        (800, 600)).2 = some CtrlError.typeErrorNotAFunction :=
  ⟨rfl, rfl⟩

/-- C4 amended: when transferable drawing surfaces are unsupported, the
Controller's first measurement event surfaces exactly one user-visible
warning, but the handler then throws a type error invoking the absent
method, so no message is posted by that event; no surface-transfer message
is ever sent over any sequence of measurement events, so rendering
silently never occurs. -/
theorem controller_unsupported_alert_then_throw (c : OffscreenCanvasH) :
    (∀ d : Nat × Nat,
        (onMeasure false c initialController d).1.alerts = 1 ∧
          (onMeasure false c initialController d).1.sent = [] ∧
          (onMeasure false c initialController d).2 =
            some CtrlError.typeErrorNotAFunction) ∧
      (∀ events : List (Nat × Nat),
        countSurfaceTransfers
          (runMeasures false c initialController events).sent = 0) := by
  refine ⟨fun d => ⟨rfl, rfl, rfl⟩, fun events => ?_⟩
  rw [runMeasures_unsupported_count]
  rfl

/-- C5: for every non-negative point count `n` supplied at Renderer
startup, data generation produces exactly `n` points; with `n = 0` the
dataset is empty and a render-loop iteration still produces a well-formed
frame drawing zero points, at every time `t`. -/
theorem dataset_count_and_empty_render (gen : Nat → SyntheticPoint)
    (n : Nat) (t : ℝ) :
    (makeData gen n).length = n ∧
      makeData gen 0 = [] ∧
      (renderFrame t (makeData gen 0)).drawn = [] := by
  refine ⟨?_, rfl, rfl⟩
  simp [makeData]

/-! Helper lemmas about the implicit domain of the ordinal color scale. -/

theorem firstIdx_map_succ (l : List Nat) (x : Nat) :
    firstIdx (l.map Nat.succ) (x + 1) = firstIdx l x := by
  induction l with
  | nil => rfl
  | cons a t ih =>
      by_cases hax : a = x
      · simp [firstIdx, hax]
      · have hne : ¬ (Nat.succ a = x + 1) := by omega
        simp [firstIdx, hax, hne, ih]

theorem firstIdx_range (i n : Nat) (h : i < n) :
    firstIdx (List.range n) i = i := by
  induction n generalizing i with
  | zero => omega
  | succ m ih =>
      rw [List.range_succ_eq_map]
      cases i with
      | zero => simp [firstIdx]
      | succ j =>
          have hj : j < m := Nat.lt_of_succ_lt_succ h
          have hne : ¬ ((0 : Nat) = j + 1) := by omega
          simp only [firstIdx, hne, if_false, firstIdx_map_succ, ih j hj]

/-- C6: with the indices presented to the ordinal color scale in ascending
order `0 .. n-1`, the fill colors assigned to point index `i` and to point
index `i + 8` are identical — the color is chosen from the fixed
8-element Accent palette by the index modulo the palette size. -/
theorem fill_color_wraps_modulo_palette (n i : Nat) (h : i + 8 < n) :
    fillColorValue n i = fillColorValue n (i + 8) ∧
      schemeAccent.length = 8 := by
  refine ⟨?_, rfl⟩
  unfold fillColorValue ordinalScaleColor
  rw [firstIdx_range i n (by omega), firstIdx_range (i + 8) n h]
  have hlen : schemeAccent.length = 8 := rfl
  rw [hlen, Nat.add_mod_right]

/-- C6 witness: concrete instance at palette distance, n = 20, i = 3. -/
theorem fill_color_wraps_modulo_palette_witness :
    3 + 8 < 20 ∧
      (fillColorValue 20 3 = fillColorValue 20 11 ∧
        schemeAccent.length = 8) :=
  ⟨by decide, fill_color_wraps_modulo_palette 20 3 (by decide)⟩

/-- C7: at every wall-clock time `t`, the axis bounds installed by a
render-loop iteration are symmetric around the origin — on both scales
the upper bound of the domain equals the negation of the lower bound. -/
theorem easing_bounds_symmetric (t : ℝ) (d : List SyntheticPoint) :
    (renderFrame t d).xDomain.2 = -(renderFrame t d).xDomain.1 ∧
      (renderFrame t d).yDomain.2 = -(renderFrame t d).yDomain.1 := by
  constructor <;> simp [renderFrame]

/-! Helper bounds for the easing scalar. -/

theorem ease_bounds (t : ℝ) : 0.1 ≤ ease t ∧ ease t ≤ 5 := by
  have h1 : -1 ≤ Real.sin (t / 1000) := Real.neg_one_le_sin _
  have h2 : Real.sin (t / 1000) ≤ 1 := Real.sin_le_one _
  unfold ease
  constructor <;> nlinarith

/-- C10: at every wall-clock time `t`, the easing scalar
`5 * (0.51 + 0.49 * sin(t / 1000))` lies in the closed interval
`[0.1, 5]` and is strictly positive, so every scale domain set by the
render loop is a non-degenerate interval with strictly negative lower
bound and strictly positive upper bound. -/
theorem easing_scalar_bounded (t : ℝ) (d : List SyntheticPoint) :
    (0.1 ≤ ease t ∧ ease t ≤ 5 ∧ 0 < ease t) ∧
      ((renderFrame t d).xDomain.1 < 0 ∧ 0 < (renderFrame t d).xDomain.2) ∧
      ((renderFrame t d).yDomain.1 < 0 ∧ 0 < (renderFrame t d).yDomain.2) := by
  obtain ⟨hl, hu⟩ := ease_bounds t
  have hpos : (0 : ℝ) < ease t := by
    have : (0 : ℝ) < 0.1 := by norm_num
    linarith
  refine ⟨⟨hl, hu, hpos⟩, ⟨?_, ?_⟩, ⟨?_, ?_⟩⟩ <;> simp [renderFrame] <;> linarith

/-- C8: the startup point-count parameter defaults correctly — with the
query string absent the fixed default 10000 is used, and with the
non-numeric query "?abc" the dataset length is 0 (the NaN travels through
the worker URL hash and parseInt, and the array-length coercion turns it
into 0), never a NaN length. -/
theorem startup_param_defaults (gen : Nat → SyntheticPoint) :
    datasetLength [] = 10000 ∧
      datasetLength ['?', 'a', 'b', 'c'] = 0 ∧
      (makeData gen (datasetLength ['?', 'a', 'b', 'c'])).length = 0 := by
  refine ⟨by decide, by decide, ?_⟩
  have h : datasetLength ['?', 'a', 'b', 'c'] = 0 := by decide
  rw [h]
  simp [makeData]

end OffscreenCanvas
